import Mathlib

/-!
Verification development for the `posix-agent-standard` repository.

The repository contains two standalone Python scripts:

* `src/examples/reference-implementations/api-client.py` — a dual-mode
  (human / agent) CLI HTTP client with structured JSON errors and semantic
  exit codes;
* `src/examples/weather/before-mcp.py` — an MCP-style weather tool wrapping
  an HTTP weather API.

Both are shallowly embedded below.  Effects are made explicit:

* the outcome of the single HTTP call is an explicit parameter of the run
  (`HttpOutcome` / `FetchOutcome`), since the network is outside the program;
* process output is collected as lists of printed strings (one entry per
  `print` call), and `sys.exit` is modelled by returning a final
  `ProcResult` carrying the exit code;
* the `ErrorReport` constructed by the `error` helper is additionally
  recorded in a ghost field `report`, and the URL of an attempted HTTP
  request in a ghost field `requested`, so that theorems can speak about
  "which failure condition was reported" and "whether a request was made".

Modelling notes on library functions used by the scripts (these are Python
standard-library / third-party functions, not code of the repository):

* `json.dumps` / `json.loads` are modelled over the `Json` inductive below.
  JSON numbers are modelled as integers: numeric literals with a fraction or
  exponent part, and `\u` escapes beyond the Basic Multilingual Plane, are
  outside the model.  `json.dumps` is modelled with Python's default
  separators (`", "` and `": "`) and key order preserved.
* `argparse` is modelled for the options declared by the script
  (`--agent`, `--base-url`, `--timeout`, `--data`, `-h`, `--help`, and the
  two optional positionals `command` and `endpoint` with
  `choices=['get', 'post']` on `command`), including the default prefix
  abbreviation (`allow_abbrev`): a `--`-token that is a prefix of exactly
  one declared long option resolves to it (so `--he` means `--help`).  The
  `--opt=value` form and the bare `--` separator are not modelled.  As in
  `argparse`, an option that expects a value rejects a following token that
  itself looks like an option, and any parse failure prints a usage message
  to stderr and exits with code 2.
* Python floats (in the weather script) are modelled as rationals.
-/

/-- JSON values, as produced by `json.loads` and consumed by `json.dumps`.
Numbers are modelled as integers (see the header note). -/
inductive Json where
  | null : Json
  | bool (b : Bool) : Json
  | num (n : Int) : Json
  | str (s : String) : Json
  | arr (elems : List Json) : Json
  | obj (fields : List (String × Json)) : Json

/-- Escape one character the way Python's `json.dumps` does (control
characters escaped; non-ASCII pass-through is a documented
simplification of `ensure_ascii`). -/
def jsonEscapeChar (c : Char) : List Char :=
  if c = '"' then ['\\', '"']
  else if c = '\\' then ['\\', '\\']
  else if c = '\n' then ['\\', 'n']
  else if c = '\t' then ['\\', 't']
  else if c = '\r' then ['\\', 'r']
  else if c.toNat = 8 then ['\\', 'b']
  else if c.toNat = 12 then ['\\', 'f']
  else if c.toNat < 32 then
    ['\\', 'u', '0', '0',
     (Nat.digitChar (c.toNat / 16)),
     (Nat.digitChar (c.toNat % 16))]
  else [c]

/-- Serialize a string to a quoted JSON string literal. -/
def jsonQuote (s : String) : String :=
  String.mk ('"' :: (s.data.flatMap jsonEscapeChar) ++ ['"'])

mutual

/-- Model of Python `json.dumps(x)` with its default separators:
`", "` between items and `": "` between a key and a value. -/
def Json.dumps : Json → String
  | .null => "null"
  | .bool b => if b then "true" else "false"
  | .num n => toString n
  | .str s => jsonQuote s
  | .arr [] => "[]"
  | .arr (x :: xs) => "[" ++ Json.dumps x ++ Json.dumpsArrTail xs ++ "]"
  | .obj [] => "\x7b\x7d"
  | .obj ((k, v) :: fs) =>
      "\x7b" ++ jsonQuote k ++ ": " ++ Json.dumps v ++ Json.dumpsObjTail fs ++ "\x7d"

/-- Comma-separated tail of a serialized JSON array. -/
def Json.dumpsArrTail : List Json → String
  | [] => ""
  | x :: xs => ", " ++ Json.dumps x ++ Json.dumpsArrTail xs

/-- Comma-separated tail of a serialized JSON object. -/
def Json.dumpsObjTail : List (String × Json) → String
  | [] => ""
  | (k, v) :: fs => ", " ++ jsonQuote k ++ ": " ++ Json.dumps v ++ Json.dumpsObjTail fs

end

/-- Two-space indentation prefix used by `json.dumps(x, indent=2)`. -/
def jsonIndent (lvl : Nat) : String :=
  String.mk (List.replicate (2 * lvl) ' ')

mutual

/-- Model of Python `json.dumps(x, indent=2)` (the human-mode pretty
printer): items on their own lines, two spaces of indentation per level. -/
def Json.pretty (lvl : Nat) : Json → String
  | .null => "null"
  | .bool b => if b then "true" else "false"
  | .num n => toString n
  | .str s => jsonQuote s
  | .arr [] => "[]"
  | .arr (x :: xs) =>
      "[\n" ++ jsonIndent (lvl + 1) ++ Json.pretty (lvl + 1) x ++
        Json.prettyArrTail (lvl + 1) xs ++ "\n" ++ jsonIndent lvl ++ "]"
  | .obj [] => "\x7b\x7d"
  | .obj ((k, v) :: fs) =>
      "\x7b\n" ++ jsonIndent (lvl + 1) ++ jsonQuote k ++ ": " ++
        Json.pretty (lvl + 1) v ++ Json.prettyObjTail (lvl + 1) fs ++
        "\n" ++ jsonIndent lvl ++ "\x7d"

/-- Tail of a pretty-printed JSON array. -/
def Json.prettyArrTail (lvl : Nat) : List Json → String
  | [] => ""
  | x :: xs => ",\n" ++ jsonIndent lvl ++ Json.pretty lvl x ++ Json.prettyArrTail lvl xs

/-- Tail of a pretty-printed JSON object. -/
def Json.prettyObjTail (lvl : Nat) : List (String × Json) → String
  | [] => ""
  | (k, v) :: fs =>
      ",\n" ++ jsonIndent lvl ++ jsonQuote k ++ ": " ++ Json.pretty lvl v ++
        Json.prettyObjTail lvl fs

end

/-- JSON whitespace skipping (space, tab, newline, carriage return). -/
def skipWs : List Char → List Char
  | [] => []
  | c :: rest =>
      if c = ' ' ∨ c = '\t' ∨ c = '\n' ∨ c = '\r' then skipWs rest else c :: rest

/-- Digit-string to natural number (base 10); `none` on the empty list or a
non-digit character. -/
def digitsToNat : List Char → Option Nat
  | [] => none
  | cs => go cs 0
where
  go : List Char → Nat → Option Nat
    | [], acc => some acc
    | c :: rest, acc =>
        if c.isDigit then go rest (acc * 10 + (c.toNat - 48)) else none

/-- Model of Python `int(s)` on a string: optional sign followed by one or
more decimal digits (whitespace and underscore tolerance not modelled). -/
def parseIntPy (s : String) : Option Int :=
  match s.data with
  | '-' :: rest => (digitsToNat rest).map (fun n => -(n : Int))
  | '+' :: rest => (digitsToNat rest).map (fun n => (n : Int))
  | ds => (digitsToNat ds).map (fun n => (n : Int))

/-- Hex digit value of a character, if any. -/
def hexVal (c : Char) : Option Nat :=
  if c.isDigit then some (c.toNat - 48)
  else if 'a' ≤ c ∧ c ≤ 'f' then some (c.toNat - 87)
  else if 'A' ≤ c ∧ c ≤ 'F' then some (c.toNat - 55)
  else none

/-- Parse the body of a JSON string literal (opening quote already
consumed); returns the decoded string and the remaining input. -/
def parseJString (cs : List Char) (acc : List Char) : Option (String × List Char) :=
  match cs with
  | [] => none
  | '"' :: rest => some (String.mk acc.reverse, rest)
  | '\\' :: 'u' :: h1 :: h2 :: h3 :: h4 :: rest =>
      match hexVal h1, hexVal h2, hexVal h3, hexVal h4 with
      | some a, some b, some c, some d =>
          let n := ((a * 16 + b) * 16 + c) * 16 + d
          if h : n.isValidChar then
            parseJString rest (Char.ofNatAux n h :: acc)
          else none
      | _, _, _, _ => none
  | '\\' :: e :: rest =>
      if e = '"' then parseJString rest ('"' :: acc)
      else if e = '\\' then parseJString rest ('\\' :: acc)
      else if e = '/' then parseJString rest ('/' :: acc)
      else if e = 'n' then parseJString rest ('\n' :: acc)
      else if e = 't' then parseJString rest ('\t' :: acc)
      else if e = 'r' then parseJString rest ('\r' :: acc)
      else if e = 'b' then parseJString rest (Char.ofNat 8 :: acc)
      else if e = 'f' then parseJString rest (Char.ofNat 12 :: acc)
      else none
  | c :: rest =>
      if c.toNat < 32 then none else parseJString rest (c :: acc)
termination_by cs.length
decreasing_by all_goals simp_arith [List.length]

/-- Parse a JSON integer literal: optional minus sign, then either `0` or a
nonzero digit followed by digits (JSON forbids leading zeros). -/
def parseJNum (cs : List Char) : Option (Int × List Char) :=
  match cs with
  | '-' :: rest => (go rest).map (fun (n, r) => (-(n : Int), r))
  | _ => (go cs).map (fun (n, r) => ((n : Int), r))
where
  go (cs : List Char) : Option (Nat × List Char) :=
    match cs with
    | '0' :: rest => some (0, rest)
    | c :: _ =>
        if c.isDigit then
          let ds := cs.takeWhile Char.isDigit
          (digitsToNat ds).map (fun n => (n, cs.dropWhile Char.isDigit))
        else none
    | [] => none

mutual

/-- Fuel-indexed JSON value parser (model of `json.loads`); returns the
value and the unconsumed input. -/
def parseJVal : Nat → List Char → Option (Json × List Char)
  | 0, _ => none
  | fuel + 1, cs =>
    match skipWs cs with
    | 'n' :: 'u' :: 'l' :: 'l' :: rest => some (Json.null, rest)
    | 't' :: 'r' :: 'u' :: 'e' :: rest => some (Json.bool true, rest)
    | 'f' :: 'a' :: 'l' :: 's' :: 'e' :: rest => some (Json.bool false, rest)
    | '"' :: rest => (parseJString rest []).map (fun (s, r) => (Json.str s, r))
    | '[' :: rest =>
        (match skipWs rest with
         | ']' :: rest2 => some (Json.arr [], rest2)
         | _ => (parseJArrItems fuel rest).map (fun (xs, r) => (Json.arr xs, r)))
    | '\x7b' :: rest =>
        (match skipWs rest with
         | '\x7d' :: rest2 => some (Json.obj [], rest2)
         | _ => (parseJObjItems fuel rest).map (fun (fs, r) => (Json.obj fs, r)))
    | cs2 => (parseJNum cs2).map (fun (n, r) => (Json.num n, r))

/-- Parse one or more comma-separated array items, up to and including the
closing bracket. -/
def parseJArrItems : Nat → List Char → Option (List Json × List Char)
  | 0, _ => none
  | fuel + 1, cs =>
    match parseJVal fuel cs with
    | none => none
    | some (x, rest) =>
        match skipWs rest with
        | ',' :: rest2 =>
            (parseJArrItems fuel rest2).map (fun (xs, r) => (x :: xs, r))
        | ']' :: rest2 => some ([x], rest2)
        | _ => none

/-- Parse one or more comma-separated object members, up to and including
the closing brace. -/
def parseJObjItems : Nat → List Char → Option (List (String × Json) × List Char)
  | 0, _ => none
  | fuel + 1, cs =>
    match skipWs cs with
    | '"' :: rest =>
        (match parseJString rest [] with
         | none => none
         | some (k, rest2) =>
             match skipWs rest2 with
             | ':' :: rest3 =>
                 (match parseJVal fuel rest3 with
                  | none => none
                  | some (v, rest4) =>
                      match skipWs rest4 with
                      | ',' :: rest5 =>
                          (parseJObjItems fuel rest5).map
                            (fun (fs, r) => ((k, v) :: fs, r))
                      | '\x7d' :: rest5 => some ([(k, v)], rest5)
                      | _ => none)
             | _ => none)
    | _ => none

end

/-- Model of Python `json.loads(s)`: parse exactly one JSON document with
nothing but whitespace around it. -/
def Json.parse (s : String) : Option Json :=
  match parseJVal (s.data.length + 1) s.data with
  | some (j, rest) => if skipWs rest = [] then some j else none
  | none => none

/-! ## api-client.py: constants and help texts -/

/-- Source constant `VERSION`. -/
def VERSION : String := "1.0.0"

/-- Source constant `BASE_URL`. -/
def BASE_URL : String := "https://jsonplaceholder.typicode.com"

/-- The text printed by `show_agent_help()` (source lines 27-49). -/
def show_agent_help : String :=
  "USAGE:\n  api-client.py [--agent] get <endpoint>\n  api-client.py [--agent] post <endpoint> --data <json>\n\nCOMMON PATTERNS:\n  api-client.py --agent get /posts/1              # Get single resource\n  api-client.py --agent get /posts                # List resources\n  api-client.py --agent post /posts --data \x27\x7b\"title\":\"Test\"\x7d\x27 # Create resource\n\nERROR CODES:\n  0   Success\n  1   General error\n  2   Invalid arguments\n  100 Resource not found (404)\n  101 Network error\n  102 Timeout\n  103 Invalid JSON response\n\nANTI-PATTERNS:\n  api-client.py get /posts     # Use --agent for machine-readable output"

/-- The text printed by `show_human_help()` (source lines 52-82), after the
`.format(version=VERSION, base=BASE_URL)` substitution. -/
def show_human_help : String :=
  "API Client v1.0.0\n\nA simple REST API client demonstrating PAS compliance.\n\nUsage:\n  api-client.py [OPTIONS] <command> <endpoint>\n\nCommands:\n  get <endpoint>              Fetch a resource\n  post <endpoint> --data ...  Create a resource\n\nOptions:\n  --agent                     Enable agent mode (JSON output)\n  --base-url <url>           Base URL (default: https://jsonplaceholder.typicode.com)\n  --timeout <seconds>         Request timeout (default: 10)\n  -h, --help                 Show this help\n\nExamples:\n  api-client.py get /posts/1\n  api-client.py --agent get /posts\n  api-client.py post /posts --data \x27\x7b\"title\":\"Test\"\x7d\x27\n\nAgent Mode:\n  When --agent is used:\n  - Output is pure JSON\n  - Errors go to stderr\n  - Exit codes are semantic\n  - No interactive prompts"

/-! ## api-client.py: process model -/

/-- The spec's `ErrorReport` entity: the structured failure description
built by the `error` helper (kind, message, exit code). -/
structure ErrorReport where
  kind : String
  message : String
  code : Nat
deriving DecidableEq

/-- Observable result of one process invocation: everything printed to
stdout and stderr (one list entry per `print` call), the exit code, the
`ErrorReport` constructed on the failure path (ghost), and the URL of the
HTTP request if one was attempted (ghost). -/
structure ProcResult where
  stdout : List String
  stderr : List String
  exitCode : Nat
  report : Option ErrorReport := none
  requested : Option String := none
deriving DecidableEq

/-- Model of `error(code, error_type, message, agent_mode)` (source lines
85-96): in agent mode print one JSON object to stderr, otherwise a prose
line; exit with `code`. -/
def error (code : Nat) (error_type : String) (message : String)
    (agent_mode : Bool) : ProcResult :=
  if agent_mode then
    { stdout := [],
      stderr := [Json.dumps (Json.obj
        [("error", Json.str error_type),
         ("message", Json.str message),
         ("code", Json.num (code : Int))])],
      exitCode := code,
      report := some ⟨error_type, message, code⟩ }
  else
    { stdout := [],
      stderr := ["Error: " ++ message],
      exitCode := code,
      report := some ⟨error_type, message, code⟩ }

/-- Model of Python `s.rstrip('/')`: drop every trailing `/`. -/
def rstripSlash (s : String) : String :=
  String.mk ((s.data.reverse.dropWhile (fun c => c == '/')).reverse)

/-- Model of Python `s.lstrip('/')`: drop every leading `/`. -/
def lstripSlash (s : String) : String :=
  String.mk (s.data.dropWhile (fun c => c == '/'))

/-- The URL built by `make_request` (source line 108):
`base_url.rstrip('/') + '/' + endpoint.lstrip('/')`. -/
def request_url (base_url : String) (endpoint : String) : String :=
  rstripSlash base_url ++ "/" ++ lstripSlash endpoint

/-! ## api-client.py: argparse model (see the header note) -/

/-- Which value-taking option is waiting for its argument. -/
inductive Pending where
  | noneP
  | baseUrlP
  | timeoutP
  | dataP
deriving DecidableEq

/-- The record produced by `parser.parse_args()` (source lines 147-159),
with the declared defaults. -/
structure ParsedArgs where
  agent : Bool := false
  base_url : String := BASE_URL
  timeout : Int := 10
  help : Bool := false
  command : Option String := none
  endpoint : Option String := none
  data : Option String := none
deriving DecidableEq

/-- A token that `argparse` treats as an option: starts with `-` and is
longer than a bare dash. -/
def isOptionLike (s : String) : Bool :=
  match s.data with
  | c :: _ :: _ => c == '-'
  | _ => false

/-- The long option strings declared by this parser (source lines
151-157). -/
def longOptions : List String :=
  ["--agent", "--base-url", "--timeout", "--data", "--help"]

/-- Whether the first list is a prefix of the second. -/
def isPrefixList : List Char → List Char → Bool
  | [], _ => true
  | _ :: _, [] => false
  | a :: as, b :: bs => a == b && isPrefixList as bs

/-- A token of the shape `argparse` abbreviates: a double dash followed by
at least one character. -/
def isLongOptionToken (s : String) : Bool :=
  match s.data with
  | c1 :: c2 :: _ :: _ => c1 == '-' && c2 == '-'
  | _ => false

/-- Model of `argparse` option-string resolution for this parser,
including the default prefix abbreviation (`allow_abbrev=True`): `-h`
matches exactly; a double-dash token matches the declared long option it
equals, or the unique declared long option it is a proper prefix of (so
`--he` resolves to `--help`); everything else resolves to nothing. -/
def resolveOption (tok : String) : Option String :=
  if tok = "-h" then some "-h"
  else if tok ∈ longOptions then some tok
  else if isLongOptionToken tok then
    match longOptions.filter (fun o => isPrefixList tok.data o.data) with
    | [o] => some o
    | _ => none
  else none

/-- Tokens the parser reads as the agent flag. -/
def agentTok (t : String) : Bool :=
  decide (resolveOption t = some "--agent")

/-- Tokens the parser reads as a request for help (exact `-h`, exact
`--help`, or an abbreviation of `--help`). -/
def helpTok (t : String) : Bool :=
  decide (resolveOption t = some "-h" ∨ resolveOption t = some "--help")

/-- The usage-plus-error text `argparse` prints to stderr before exiting
with code 2. -/
def usageMsg (detail : String) : String :=
  "usage: api-client.py [--agent] [--base-url BASE_URL] [--timeout TIMEOUT] [-h] [\x7bget,post\x7d] [endpoint] [--data DATA]\napi-client.py: error: " ++ detail

/-- One pass over the token list, mirroring `argparse` for this parser:
option tokens are resolved by `resolveOption` (exact or abbreviated),
flags set booleans, value options consume the next non-option token,
positionals fill `command` (checked against `choices=['get', 'post']`) then
`endpoint`, anything further is rejected. -/
def parseLoop : List String → Pending → ParsedArgs → Except String ParsedArgs
  | [], Pending.noneP, acc => Except.ok acc
  | [], Pending.baseUrlP, _ =>
      Except.error (usageMsg "argument --base-url: expected one argument")
  | [], Pending.timeoutP, _ =>
      Except.error (usageMsg "argument --timeout: expected one argument")
  | [], Pending.dataP, _ =>
      Except.error (usageMsg "argument --data: expected one argument")
  | tok :: rest, Pending.baseUrlP, acc =>
      if isOptionLike tok then
        Except.error (usageMsg "argument --base-url: expected one argument")
      else parseLoop rest Pending.noneP { acc with base_url := tok }
  | tok :: rest, Pending.timeoutP, acc =>
      if isOptionLike tok then
        Except.error (usageMsg "argument --timeout: expected one argument")
      else
        match parseIntPy tok with
        | some n => parseLoop rest Pending.noneP { acc with timeout := n }
        | none =>
            Except.error (usageMsg
              ("argument --timeout: invalid int value: \x27" ++ tok ++ "\x27"))
  | tok :: rest, Pending.dataP, acc =>
      if isOptionLike tok then
        Except.error (usageMsg "argument --data: expected one argument")
      else parseLoop rest Pending.noneP { acc with data := some tok }
  | tok :: rest, Pending.noneP, acc =>
      match resolveOption tok with
      | some opt =>
          if opt = "--agent" then parseLoop rest Pending.noneP { acc with agent := true }
          else if opt = "-h" ∨ opt = "--help" then
            parseLoop rest Pending.noneP { acc with help := true }
          else if opt = "--base-url" then parseLoop rest Pending.baseUrlP acc
          else if opt = "--timeout" then parseLoop rest Pending.timeoutP acc
          else parseLoop rest Pending.dataP acc
      | none =>
        if isOptionLike tok then
          Except.error (usageMsg ("unrecognized arguments: " ++ tok))
        else
        match acc.command with
        | none =>
            if tok = "get" ∨ tok = "post" then
              parseLoop rest Pending.noneP { acc with command := some tok }
            else
              Except.error (usageMsg
                ("argument command: invalid choice: \x27" ++ tok ++
                 "\x27 (choose from \x27get\x27, \x27post\x27)"))
        | some _ =>
            match acc.endpoint with
            | none => parseLoop rest Pending.noneP { acc with endpoint := some tok }
            | some _ =>
                Except.error (usageMsg ("unrecognized arguments: " ++ tok))

/-- Model of `parser.parse_args()` on the argument vector (without the
program name). -/
def parse_args (argv : List String) : Except String ParsedArgs :=
  parseLoop argv Pending.noneP {}

/-! ## api-client.py: HTTP outcome and main flow -/

/-- Environment of the single HTTP call in `make_request`: either the
response body was read and parsed as JSON, or one of the exceptions the
source catches was raised (source lines 122-134). -/
inductive HttpOutcome where
  | success (body : Json)
  | httpError (code : Nat) (reason : String)
  | urlError (reason : String)
  | timeout
  | invalidJson
  | unexpected (msg : String)

/-- Model of `make_request` (source lines 99-134), with the success-path
printing from `main` (source lines 197-202) folded in: on success the
parsed body is printed to stdout, compact JSON in agent mode and
2-indented JSON in human mode; every caught exception is converted by
`error` to a report and an exit code.  The ghost field `requested` records
the URL of the attempted request. -/
def make_request (method : String) (endpoint : String) (data : Option Json)
    (base_url : String) (timeout : Int) (agent_mode : Bool)
    (env : HttpOutcome) : ProcResult :=
  let url := request_url base_url endpoint
  match env with
  | .success body =>
      { stdout := [if agent_mode then Json.dumps body else Json.pretty 0 body],
        stderr := [], exitCode := 0, report := none, requested := some url }
  | .httpError c reason =>
      if c = 404 then
        { error 100 "NOT_FOUND" ("Resource not found: " ++ endpoint) agent_mode with
            requested := some url }
      else
        { error 1 "HTTP_ERROR" ("HTTP " ++ toString c ++ ": " ++ reason) agent_mode with
            requested := some url }
  | .urlError reason =>
      { error 101 "NETWORK_ERROR" ("Network error: " ++ reason) agent_mode with
          requested := some url }
  | .timeout =>
      { error 102 "TIMEOUT" ("Request timed out after " ++ toString timeout ++ "s")
          agent_mode with requested := some url }
  | .invalidJson =>
      { error 103 "INVALID_JSON" "Server returned invalid JSON" agent_mode with
          requested := some url }
  | .unexpected msg =>
      { error 1 "UNEXPECTED_ERROR" msg agent_mode with requested := some url }

/-- Model of Python `s.upper()` (uppercasing each character), used for the
HTTP method. -/
def pyUpper (s : String) : String :=
  String.mk (s.data.map Char.toUpper)

/-- The arguments `main` passes to `make_request` (source lines 187-194). -/
structure RequestParams where
  method : String
  endpoint : String
  data : Option Json
  base_url : String
  timeout : Int
  agent_mode : Bool

/-- Everything `main` does before the HTTP call (source lines 137-184):
agent-help short circuit, `parse_args`, the help branch, and the four
validation checks.  Returns the parameters of the request, or the final
`ProcResult` of a run that terminated before any request. -/
def mainSteps (argv : List String) : Except ProcResult RequestParams :=
  let agent_mode := argv.contains "--agent"
  if agent_mode && (argv.contains "--help" || argv.contains "-h") then
    Except.error { stdout := [show_agent_help], stderr := [], exitCode := 0 }
  else
    match parse_args argv with
    | Except.error usage =>
        Except.error { stdout := [], stderr := [usage], exitCode := 2 }
    | Except.ok args =>
      if args.help then
        Except.error
          { stdout := [if args.agent then show_agent_help else show_human_help],
            stderr := [], exitCode := 0 }
      else
        match args.command with
        | none =>
            Except.error (error 2 "MISSING_COMMAND" "Command required (get or post)"
              args.agent)
        | some command =>
          match args.endpoint with
          | none => Except.error (error 2 "MISSING_ENDPOINT" "Endpoint required" args.agent)
          | some endpoint =>
            if command = "post" then
              match args.data with
              | none =>
                  Except.error (error 2 "MISSING_DATA" "POST requires --data argument"
                    args.agent)
              | some d =>
                match Json.parse d with
                | none =>
                    Except.error (error 2 "INVALID_JSON" "Data must be valid JSON"
                      args.agent)
                | some post_data =>
                    Except.ok { method := pyUpper command, endpoint := endpoint,
                                data := some post_data, base_url := args.base_url,
                                timeout := args.timeout, agent_mode := args.agent }
            else
              Except.ok { method := pyUpper command, endpoint := endpoint,
                          data := none, base_url := args.base_url,
                          timeout := args.timeout, agent_mode := args.agent }

/-- Model of `main()` (source lines 137-202): one full invocation of the
tool, on an argument vector (without the program name) and an HTTP
environment.  (Named `mainRun` because Lean reserves `main` for an IO
entry point.) -/
def mainRun (argv : List String) (env : HttpOutcome) : ProcResult :=
  match mainSteps argv with
  | Except.error r => r
  | Except.ok p =>
      make_request p.method p.endpoint p.data p.base_url p.timeout p.agent_mode env

/-- The spec's `InvocationMode` entity. -/
inductive InvocationMode where
  | agent
  | human
deriving DecidableEq

/-- The spec's `detect_mode` operation; the source computes it as
`'--agent' in sys.argv` (line 139).  A pure function of the argument
vector. -/
def detect_mode (args : List String) : InvocationMode :=
  if args.contains "--agent" then InvocationMode.agent else InvocationMode.human

/-! ## before-mcp.py: weather tool model -/

/-- The `WeatherOutput` schema of the weather script; Python floats are
modelled as rationals. -/
structure WeatherOutput where
  city : String
  temperature : ℚ
  condition : String
  humidity : Int
  wind_speed : ℚ
  units : String

/-- FastAPI's `HTTPException`, as raised by the weather script. -/
structure HTTPException where
  status_code : Nat
  detail : String
deriving DecidableEq

/-- The exceptions the parsing layer can raise that the script catches
(`KeyError`, `IndexError`, `ValueError`), each with the rendered message
text used in the 500 detail. -/
inductive Caught where
  | keyError (k : String)
  | indexError
  | valueError (msg : String)

/-- Errors escaping a weather-script function: either an `HTTPException`
it raised deliberately, or an uncaught `TypeError` from an operation on a
value of the wrong shape (which the script does not catch). -/
inductive PyError where
  | httpExc (e : HTTPException)
  | typeError

/-- Error type inside `parse_weather_response`'s `try` block. -/
inductive PErr where
  | caught (c : Caught)
  | typeError

/-- Environment of the single `requests.get` in `fetch_weather_data`:
either the response parsed as JSON, or one of the exceptions the source
catches (source lines 79-93). -/
inductive FetchOutcome where
  | ok (data : Json)
  | timeout
  | requestError (msg : String)
  | invalidJson

/-- Model of `fetch_weather_data` (source lines 61-93): pass the parsed
response through, or map each caught exception to its `HTTPException`. -/
def fetch_weather_data (env : FetchOutcome) (city : String) :
    Except HTTPException Json :=
  match env, city with
  | .ok data, _ => .ok data
  | .timeout, _ => .error ⟨504, "Weather API timeout"⟩
  | .requestError msg, _ => .error ⟨502, "Weather API error: " ++ msg⟩
  | .invalidJson, _ => .error ⟨500, "Invalid response from weather API"⟩

/-- Python `d[k]` on a JSON value: object lookup (`KeyError` when absent),
`TypeError` on a non-object. -/
def jItem (j : Json) (k : String) : Except PErr Json :=
  match j with
  | .obj fields =>
      match fields.lookup k with
      | some v => .ok v
      | none => .error (.caught (.keyError ("\x27" ++ k ++ "\x27")))
  | _ => .error .typeError

/-- Python `l[0]` on a JSON value: first element of an array
(`IndexError` when empty), `TypeError` on a non-array. -/
def jFirst (j : Json) : Except PErr Json :=
  match j with
  | .arr (x :: _) => .ok x
  | .arr [] => .error (.caught (.indexError))
  | _ => .error .typeError

/-- Python `float(x)` on a JSON value: numbers pass through, strings are
parsed (`ValueError` on failure), booleans coerce, anything else is a
`TypeError`.  Only plain decimal literals are modelled. -/
def pyFloat (j : Json) : Except PErr ℚ :=
  match j with
  | .num n => .ok (n : ℚ)
  | .bool b => .ok (if b then 1 else 0)
  | .str s =>
      match s.data with
      | '-' :: ds =>
          match digitsToNat ds with
          | some n => .ok (-(n : ℚ))
          | none =>
              .error (.caught (.valueError
                ("could not convert string to float: \x27" ++ s ++ "\x27")))
      | ds =>
          match digitsToNat ds with
          | some n => .ok ((n : ℚ))
          | none =>
              .error (.caught (.valueError
                ("could not convert string to float: \x27" ++ s ++ "\x27")))
  | _ => .error .typeError

/-- Python `int(x)` on a JSON value, analogous to `pyFloat`. -/
def pyInt (j : Json) : Except PErr Int :=
  match j with
  | .num n => .ok n
  | .bool b => .ok (if b then 1 else 0)
  | .str s =>
      match parseIntPy s with
      | some n => .ok n
      | none =>
          .error (.caught (.valueError
            ("invalid literal for int() with base 10: \x27" ++ s ++ "\x27")))
  | _ => .error .typeError

/-- A string-typed schema field: non-strings fail the `WeatherOutput`
construction (modelled as an uncaught `TypeError`). -/
def pyStrField (j : Json) : Except PErr String :=
  match j with
  | .str s => .ok s
  | _ => .error .typeError

/-- The body of `parse_weather_response`'s `try` block (source lines
107-124), in the source's evaluation order. -/
def parseWeatherBody (data : Json) (city : String) (units : String) :
    Except PErr WeatherOutput := do
  let cc ← jItem data "current_condition"
  let current ← jFirst cc
  let temp_c ← pyFloat (← jItem current "temp_C")
  let temperature : ℚ := if units = "imperial" then (temp_c * 9 / 5) + 32 else temp_c
  let condition ← pyStrField (← jItem (← jFirst (← jItem current "weatherDesc")) "value")
  let humidity ← pyInt (← jItem current "humidity")
  let wind_speed ←
    if units = "metric" then pyFloat (← jItem current "windspeedKmph")
    else pyFloat (← jItem current "windspeedMiles")
  return { city := city, temperature := temperature, condition := condition,
           humidity := humidity, wind_speed := wind_speed, units := units }

/-- Rendered message of a caught exception, used in the 500 detail. -/
def caughtMsg : Caught → String
  | .keyError k => k
  | .indexError => "list index out of range"
  | .valueError m => m

/-- Model of `parse_weather_response` (source lines 95-129): run the body
and convert every caught `KeyError` / `IndexError` / `ValueError` to an
`HTTPException` 500; a `TypeError` propagates uncaught. -/
def parse_weather_response (data : Json) (city : String) (units : String) :
    Except PyError WeatherOutput :=
  match parseWeatherBody data city units with
  | .ok w => .ok w
  | .error (.caught c) =>
      .error (.httpExc ⟨500, "Failed to parse weather data: " ++ caughtMsg c⟩)
  | .error .typeError => .error .typeError

/-- Result of one `get_weather` call, with a ghost flag recording whether
the network fetch was attempted. -/
structure WeatherRun where
  result : Except PyError WeatherOutput
  fetchAttempted : Bool

/-- Model of the MCP tool `get_weather` (source lines 140-167): validate
`units` first (HTTP 400 on failure, before any fetch), then fetch, then
parse. -/
def get_weather (env : FetchOutcome) (city : String) (units : String) :
    WeatherRun :=
  if units = "metric" ∨ units = "imperial" then
    match fetch_weather_data env city with
    | .error e => { result := .error (.httpExc e), fetchAttempted := true }
    | .ok raw =>
        { result := parse_weather_response raw city units, fetchAttempted := true }
  else
    { result := .error (.httpExc
        ⟨400, "Invalid units: " ++ units ++ ". Must be \x27metric\x27 or \x27imperial\x27"⟩),
      fetchAttempted := false }

/-! ## Helper lemmas -/

/-- The head of `dropWhile p` never satisfies `p`. -/
theorem head_dropWhile_false (p : Char → Bool) (l : List Char) (c : Char)
    (h : (l.dropWhile p).head? = some c) : p c = false := by
  induction l with
  | nil => simp [List.dropWhile] at h
  | cons a t ih =>
    rw [List.dropWhile_cons] at h
    by_cases hp : p a
    · simp [hp] at h; exact ih h
    · simp [hp] at h
      rw [← h]
      simp [hp]

/-- Python rstrip of slashes leaves no trailing slash. -/
theorem rstripSlash_no_trailing (s : String) :
    (rstripSlash s).data.getLast? ≠ some '/' := by
  intro h
  unfold rstripSlash at h
  rw [List.getLast?_reverse] at h
  have := head_dropWhile_false (fun c => c == '/') s.data.reverse '/' h
  simp at this

/-- Python lstrip of slashes leaves no leading slash. -/
theorem lstripSlash_no_leading (s : String) :
    (lstripSlash s).data.head? ≠ some '/' := by
  intro h
  unfold lstripSlash at h
  have := head_dropWhile_false (fun c => c == '/') s.data '/' h
  simp at this

/-- A trailing slash on the base is absorbed by `rstrip('/')`. -/
theorem rstripSlash_append_slash (s : String) :
    rstripSlash (s ++ "/") = rstripSlash s := by
  unfold rstripSlash
  congr 1
  have hdata : (s ++ "/").data = s.data ++ ['/'] := by
    rw [String.data_append]
  rw [hdata, List.reverse_append]
  simp [List.dropWhile_cons]

/-- A leading slash on the endpoint is absorbed by `lstrip('/')`. -/
theorem lstripSlash_slash_append (s : String) :
    lstripSlash ("/" ++ s) = lstripSlash s := by
  unfold lstripSlash
  congr 1

/-- Resolution facts: every declared long option token is option-like. -/
theorem isOptionLike_of_mem_longOptions (s : String) (h : s ∈ longOptions) :
    isOptionLike s = true := by
  simp [longOptions] at h
  rcases h with h | h | h | h | h <;> subst h <;> decide

/-- A double-dash abbreviation token is option-like. -/
theorem isOptionLike_of_isLongOptionToken (s : String)
    (h : isLongOptionToken s = true) : isOptionLike s = true := by
  unfold isLongOptionToken at h
  unfold isOptionLike
  rcases hd : s.data with _ | ⟨c1, _ | ⟨c2, _ | ⟨c3, tl⟩⟩⟩
  · simp only [hd] at h
    exact absurd h (by decide)
  · simp only [hd] at h
    exact absurd h (by decide)
  · simp only [hd] at h
    exact absurd h (by decide)
  · simp only [hd] at h ⊢
    simp at h
    simp [h.1]

/-- A token that resolves to an option is option-like. -/
theorem resolveOption_some_optionLike (s o : String)
    (h : resolveOption s = some o) : isOptionLike s = true := by
  unfold resolveOption at h
  by_cases h1 : s = "-h"
  · subst h1
    decide
  · rw [if_neg h1] at h
    by_cases h2 : s ∈ longOptions
    · exact isOptionLike_of_mem_longOptions s h2
    · rw [if_neg h2] at h
      by_cases h3 : isLongOptionToken s = true
      · exact isOptionLike_of_isLongOptionToken s h3
      · rw [if_neg h3] at h
        exact (Option.noConfusion h)

/-- A token that is not option-like resolves to no option. -/
theorem resolveOption_none_of_not_optionLike (s : String)
    (h : isOptionLike s = false) : resolveOption s = none := by
  cases hx : resolveOption s with
  | none => rfl
  | some o =>
    have ho := resolveOption_some_optionLike s o hx
    rw [h] at ho
    exact absurd ho (by decide)

/-- The `agent` and `help` flags produced by a successful parse are scans
of the input for tokens resolving to the corresponding option (on top of
what was already set in the accumulator). -/
theorem parseLoop_flags (l : List String) : ∀ (p : Pending) (acc a : ParsedArgs),
    parseLoop l p acc = Except.ok a →
    (a.agent = (acc.agent || l.any agentTok) ∧
     a.help = (acc.help || l.any helpTok)) := by
  induction l with
  | nil =>
    intro p acc a h
    cases p <;> simp [parseLoop] at h
    simp [← h]
  | cons tok rest ih =>
    intro p acc a h
    cases p with
    | baseUrlP =>
      rw [parseLoop] at h
      split_ifs at h with h1
      obtain ⟨iha, ihh⟩ := ih _ _ _ h
      have hof : isOptionLike tok = false := by
        cases hx : isOptionLike tok
        · rfl
        · exact absurd hx h1
      have hro : resolveOption tok = none := resolveOption_none_of_not_optionLike tok hof
      constructor
      · rw [iha]; simp [List.any_cons, agentTok, hro]
      · rw [ihh]; simp [List.any_cons, helpTok, hro]
    | dataP =>
      rw [parseLoop] at h
      split_ifs at h with h1
      obtain ⟨iha, ihh⟩ := ih _ _ _ h
      have hof : isOptionLike tok = false := by
        cases hx : isOptionLike tok
        · rfl
        · exact absurd hx h1
      have hro : resolveOption tok = none := resolveOption_none_of_not_optionLike tok hof
      constructor
      · rw [iha]; simp [List.any_cons, agentTok, hro]
      · rw [ihh]; simp [List.any_cons, helpTok, hro]
    | timeoutP =>
      rw [parseLoop] at h
      split_ifs at h with h1
      have hof : isOptionLike tok = false := by
        cases hx : isOptionLike tok
        · rfl
        · exact absurd hx h1
      have hro : resolveOption tok = none := resolveOption_none_of_not_optionLike tok hof
      cases hp : parseIntPy tok with
      | none =>
        rw [hp] at h
        exact (Except.noConfusion h)
      | some n =>
        rw [hp] at h
        obtain ⟨iha, ihh⟩ := ih _ _ _ h
        constructor
        · rw [iha]; simp [List.any_cons, agentTok, hro]
        · rw [ihh]; simp [List.any_cons, helpTok, hro]
    | noneP =>
      rw [parseLoop] at h
      rcases hro : resolveOption tok with _ | opt
      · simp only [hro] at h
        by_cases h6 : isOptionLike tok = true
        · rw [if_pos h6] at h
          exact (Except.noConfusion h)
        · rw [if_neg h6] at h
          rcases hc : acc.command with _ | cmd
          · simp only [hc] at h
            by_cases h7 : tok = "get" ∨ tok = "post"
            · rw [if_pos h7] at h
              obtain ⟨iha, ihh⟩ := ih _ _ _ h
              constructor
              · rw [iha]; simp [List.any_cons, agentTok, hro]
              · rw [ihh]; simp [List.any_cons, helpTok, hro]
            · rw [if_neg h7] at h
              exact (Except.noConfusion h)
          · simp only [hc] at h
            rcases he : acc.endpoint with _ | ep
            · simp only [he] at h
              obtain ⟨iha, ihh⟩ := ih _ _ _ h
              constructor
              · rw [iha]; simp [List.any_cons, agentTok, hro]
              · rw [ihh]; simp [List.any_cons, helpTok, hro]
            · simp only [he] at h
              exact (Except.noConfusion h)
      · simp only [hro] at h
        by_cases h1 : opt = "--agent"
        · rw [if_pos h1] at h
          subst h1
          obtain ⟨iha, ihh⟩ := ih _ _ _ h
          constructor
          · rw [iha]; simp [List.any_cons, agentTok, hro]
          · rw [ihh]; simp [List.any_cons, helpTok, hro]
        · rw [if_neg h1] at h
          by_cases h2 : opt = "-h" ∨ opt = "--help"
          · rw [if_pos h2] at h
            obtain ⟨iha, ihh⟩ := ih _ _ _ h
            constructor
            · rw [iha]
              rcases h2 with h2 | h2 <;> subst h2 <;>
                simp [List.any_cons, agentTok, hro]
            · rw [ihh]
              rcases h2 with h2 | h2 <;> subst h2 <;>
                simp [List.any_cons, helpTok, hro]
          · rw [if_neg h2] at h
            have hh1 : opt ≠ "-h" := fun he2 => h2 (Or.inl he2)
            have hh2 : opt ≠ "--help" := fun he2 => h2 (Or.inr he2)
            by_cases h3 : opt = "--base-url"
            · rw [if_pos h3] at h
              obtain ⟨iha, ihh⟩ := ih _ _ _ h
              constructor
              · rw [iha]; simp [List.any_cons, agentTok, hro, h1]
              · rw [ihh]; simp [List.any_cons, helpTok, hro, hh1, hh2]
            · rw [if_neg h3] at h
              by_cases h4 : opt = "--timeout"
              · rw [if_pos h4] at h
                obtain ⟨iha, ihh⟩ := ih _ _ _ h
                constructor
                · rw [iha]; simp [List.any_cons, agentTok, hro, h1]
                · rw [ihh]; simp [List.any_cons, helpTok, hro, hh1, hh2]
              · rw [if_neg h4] at h
                obtain ⟨iha, ihh⟩ := ih _ _ _ h
                constructor
                · rw [iha]; simp [List.any_cons, agentTok, hro, h1]
                · rw [ihh]; simp [List.any_cons, helpTok, hro, hh1, hh2]

/-- The report recorded by `error`. -/
theorem error_report (code : Nat) (k m : String) (ag : Bool) :
    (error code k m ag).report = some ⟨k, m, code⟩ := by
  unfold error; split <;> rfl

/-- The exit code of `error` is its `code` argument. -/
theorem error_exitCode (code : Nat) (k m : String) (ag : Bool) :
    (error code k m ag).exitCode = code := by
  unfold error; split <;> rfl

/-- The `error` helper writes nothing to stdout. -/
theorem error_stdout (code : Nat) (k m : String) (ag : Bool) :
    (error code k m ag).stdout = [] := by
  unfold error; split <;> rfl

/-- The `error` helper writes exactly one line to stderr. -/
theorem error_stderr_len (code : Nat) (k m : String) (ag : Bool) :
    (error code k m ag).stderr.length = 1 := by
  unfold error; split <;> rfl

/-- The fixed kind-to-exit-code table of the api client, for every kind it
reports other than the overloaded `INVALID_JSON`. -/
def kindCode (k : String) : Nat :=
  if k = "MISSING_COMMAND" then 2
  else if k = "MISSING_ENDPOINT" then 2
  else if k = "MISSING_DATA" then 2
  else if k = "NOT_FOUND" then 100
  else if k = "HTTP_ERROR" then 1
  else if k = "NETWORK_ERROR" then 101
  else if k = "TIMEOUT" then 102
  else 1

/-- Every report produced before the HTTP call whose kind is not the
overloaded `INVALID_JSON` carries the exit code fixed by `kindCode`. -/
theorem mainSteps_report (argv : List String) (r : ProcResult) (rep : ErrorReport)
    (h : mainSteps argv = Except.error r) (hr : r.report = some rep)
    (hk : rep.kind ≠ "INVALID_JSON") : rep.code = kindCode rep.kind := by
  unfold mainSteps at h
  by_cases hg : (argv.contains "--agent" && (argv.contains "--help" || argv.contains "-h")) = true
  · rw [if_pos hg] at h
    injection h with h'
    rw [← h'] at hr
    simp at hr
  · rw [if_neg hg] at h
    split at h
    · injection h with h'
      rw [← h'] at hr
      simp at hr
    · rename_i args hpa
      by_cases hh : args.help = true
      · rw [if_pos hh] at h
        injection h with h'
        rw [← h'] at hr
        simp at hr
      · rw [if_neg hh] at h
        split at h
        · injection h with h'
          rw [← h', error_report] at hr
          injection hr with hr'
          rw [← hr']
          simp [kindCode]
        · rename_i cmd hc
          split at h
          · injection h with h'
            rw [← h', error_report] at hr
            injection hr with hr'
            rw [← hr']
            simp [kindCode]
          · by_cases hp : cmd = "post"
            · rw [if_pos hp] at h
              split at h
              · injection h with h'
                rw [← h', error_report] at hr
                injection hr with hr'
                rw [← hr']
                simp [kindCode]
              · split at h
                · injection h with h'
                  rw [← h', error_report] at hr
                  injection hr with hr'
                  rw [← hr'] at hk
                  exact absurd rfl hk
                · exact (Except.noConfusion h)
            · rw [if_neg hp] at h
              exact (Except.noConfusion h)

/-- Replacing the ghost `requested` field changes no other field. -/
theorem withRequested_report (x : ProcResult) (u : Option String) :
    ({ x with requested := u } : ProcResult).report = x.report := rfl

/-- Replacing the ghost `requested` field changes no other field. -/
theorem withRequested_exitCode (x : ProcResult) (u : Option String) :
    ({ x with requested := u } : ProcResult).exitCode = x.exitCode := rfl

/-- Every report produced by `make_request` whose kind is not the
overloaded `INVALID_JSON` carries the exit code fixed by `kindCode`. -/
theorem make_request_report (method endpoint : String) (data : Option Json)
    (base_url : String) (timeout : Int) (ag : Bool) (env : HttpOutcome)
    (rep : ErrorReport)
    (hr : (make_request method endpoint data base_url timeout ag env).report = some rep)
    (hk : rep.kind ≠ "INVALID_JSON") : rep.code = kindCode rep.kind := by
  cases env with
  | success body => simp [make_request] at hr
  | httpError c reason =>
    by_cases hc : c = 404
    · simp only [make_request, if_pos hc, withRequested_report, error_report] at hr
      injection hr with hr'
      rw [← hr']
      simp [kindCode]
    · simp only [make_request, if_neg hc, withRequested_report, error_report] at hr
      injection hr with hr'
      rw [← hr']
      simp [kindCode]
  | urlError reason =>
    simp only [make_request, withRequested_report, error_report] at hr
    injection hr with hr'
    rw [← hr']
    simp [kindCode]
  | timeout =>
    simp only [make_request, withRequested_report, error_report] at hr
    injection hr with hr'
    rw [← hr']
    simp [kindCode]
  | invalidJson =>
    simp only [make_request, withRequested_report, error_report] at hr
    injection hr with hr'
    rw [← hr'] at hk
    exact absurd rfl hk
  | unexpected msg =>
    simp only [make_request, withRequested_report, error_report] at hr
    injection hr with hr'
    rw [← hr']
    simp [kindCode]

/-- Any report of a full run whose kind is not the overloaded
`INVALID_JSON` carries the exit code fixed by `kindCode`. -/
theorem mainRun_report (argv : List String) (env : HttpOutcome) (rep : ErrorReport)
    (hr : (mainRun argv env).report = some rep)
    (hk : rep.kind ≠ "INVALID_JSON") : rep.code = kindCode rep.kind := by
  unfold mainRun at hr
  split at hr
  · rename_i r hms
    exact mainSteps_report argv r rep hms hr hk
  · rename_i p hms
    exact make_request_report p.method p.endpoint p.data p.base_url p.timeout
      p.agent_mode env rep hr hk

/-- C2 counterexample: the kind string `INVALID_JSON` is reported with exit
code 2 by the `--data` validation failure and with exit code 103 when the
server returns unparseable JSON, so equal kinds do not imply equal exit
codes. -/
theorem invalid_json_kind_two_exit_codes :
    (mainRun ["post", "/x", "--data", "x"] HttpOutcome.timeout).report =
      some ⟨"INVALID_JSON", "Data must be valid JSON", 2⟩ ∧
    (mainRun ["get", "/x"] HttpOutcome.invalidJson).report =
      some ⟨"INVALID_JSON", "Server returned invalid JSON", 103⟩ ∧
    (2 : Nat) ≠ 103 :=
  ⟨rfl, rfl, by decide⟩

/-- C2 amended: for every pair of failure terminations reporting the same
error kind, if that kind is not the overloaded `INVALID_JSON` then the two
terminations exit with the same code. -/
theorem same_kind_same_exit_code (a1 : List String) (e1 : HttpOutcome)
    (a2 : List String) (e2 : HttpOutcome) (r1 r2 : ErrorReport)
    (h1 : (mainRun a1 e1).report = some r1)
    (h2 : (mainRun a2 e2).report = some r2)
    (hkk : r1.kind = r2.kind) (hnot : r1.kind ≠ "INVALID_JSON") :
    r1.code = r2.code := by
  have e1' : r1.code = kindCode r1.kind := mainRun_report a1 e1 r1 h1 hnot
  have e2' : r2.code = kindCode r2.kind := mainRun_report a2 e2 r2 h2 (hkk ▸ hnot)
  rw [e1', e2', hkk]

/-- Witness for `same_kind_same_exit_code` at two concrete timeout runs. -/
theorem same_kind_same_exit_code_witness :
    (mainRun ["get", "/x"] HttpOutcome.timeout).report =
      some ⟨"TIMEOUT", "Request timed out after 10s", 102⟩ ∧
    (mainRun ["post", "/y", "--data", "\x7b\x7d"] HttpOutcome.timeout).report =
      some ⟨"TIMEOUT", "Request timed out after 10s", 102⟩ ∧
    (⟨"TIMEOUT", "Request timed out after 10s", 102⟩ : ErrorReport).code =
      (⟨"TIMEOUT", "Request timed out after 10s", 102⟩ : ErrorReport).code :=
  ⟨rfl, rfl,
    same_kind_same_exit_code ["get", "/x"] HttpOutcome.timeout
      ["post", "/y", "--data", "\x7b\x7d"] HttpOutcome.timeout _ _ rfl rfl rfl
      (by decide)⟩

/-- C3: whenever an invocation reaches the HTTP call and that call times
out, the process exits with code 102 and the reported kind is `TIMEOUT`. -/
theorem timeout_exits_102 (argv : List String) (p : RequestParams)
    (h : mainSteps argv = Except.ok p) :
    (mainRun argv HttpOutcome.timeout).exitCode = 102 ∧
    (mainRun argv HttpOutcome.timeout).report =
      some ⟨"TIMEOUT", "Request timed out after " ++ toString p.timeout ++ "s", 102⟩ := by
  unfold mainRun
  rw [h]
  constructor
  · simp only [make_request, withRequested_exitCode, error_exitCode]
  · simp only [make_request, withRequested_report, error_report]

/-- Witness for `timeout_exits_102` at a concrete invocation. -/
theorem timeout_exits_102_witness :
    mainSteps ["get", "/x"] =
      Except.ok ⟨"GET", "/x", none, BASE_URL, 10, false⟩ ∧
    (mainRun ["get", "/x"] HttpOutcome.timeout).exitCode = 102 :=
  ⟨rfl, (timeout_exits_102 ["get", "/x"] ⟨"GET", "/x", none, BASE_URL, 10, false⟩ rfl).1⟩

/-- C6: `get /nope` with `--agent` against an endpoint answering 404 exits
with code 100 and writes to stderr exactly the serialization of the JSON
object with `error` = `NOT_FOUND`, `message` = `Resource not found: /nope`
and `code` = 100 (and nothing to stdout). -/
theorem agent_get_nope_404 (reason : String) :
    mainRun ["--agent", "get", "/nope"] (HttpOutcome.httpError 404 reason) =
      { stdout := [],
        stderr := [Json.dumps (Json.obj
          [("error", Json.str "NOT_FOUND"),
           ("message", Json.str "Resource not found: /nope"),
           ("code", Json.num 100)])],
        exitCode := 100,
        report := some ⟨"NOT_FOUND", "Resource not found: /nope", 100⟩,
        requested := some (request_url BASE_URL "/nope") } ∧
    Json.dumps (Json.obj
        [("error", Json.str "NOT_FOUND"),
         ("message", Json.str "Resource not found: /nope"),
         ("code", Json.num 100)]) =
      "\x7b\"error\": \"NOT_FOUND\", \"message\": \"Resource not found: /nope\", \"code\": 100\x7d" :=
  ⟨rfl, rfl⟩

/-- C7 counterexample: with no arguments the process exits 2, but stderr
holds `Error: Command required (get or post)`; it contains neither the text
`No input specified` nor the kind `MISSING_ARGUMENT` the claim names. -/
theorem no_args_stderr_counterexample :
    (mainRun [] HttpOutcome.timeout).exitCode = 2 ∧
    (mainRun [] HttpOutcome.timeout).stderr =
      ["Error: Command required (get or post)"] ∧
    ¬ List.IsInfix "No input specified".data
        "Error: Command required (get or post)".data ∧
    ¬ List.IsInfix "MISSING_ARGUMENT".data
        "Error: Command required (get or post)".data :=
  ⟨rfl, rfl, by decide, by decide⟩

/-- C7 amended: with no arguments the process is in human mode, exits 2,
and reports kind `MISSING_COMMAND` with stderr
`Error: Command required (get or post)`. -/
theorem no_args_missing_command (env : HttpOutcome) :
    mainRun [] env =
      { stdout := [],
        stderr := ["Error: Command required (get or post)"],
        exitCode := 2,
        report := some ⟨"MISSING_COMMAND", "Command required (get or post)", 2⟩ } :=
  rfl

/-- C8: mode detection returns `agent` exactly when `--agent` occurs in
the argument vector, and `human` exactly otherwise; it is a pure function
of the vector. -/
theorem detect_mode_spec (args : List String) :
    (detect_mode args = InvocationMode.agent ↔ "--agent" ∈ args) ∧
    (detect_mode args = InvocationMode.human ↔ "--agent" ∉ args) := by
  unfold detect_mode
  by_cases hc : args.contains "--agent" = true
  · rw [if_pos hc]
    have hm : "--agent" ∈ args := List.elem_iff.mp hc
    constructor
    · simp [hm]
    · simp [hm]
  · rw [if_neg hc]
    have hm : "--agent" ∉ args := fun hmem => hc (List.elem_iff.mpr hmem)
    constructor
    · simp [hm]
    · simp [hm]

/-- C9: the request URL is the base stripped of all trailing slashes, one
slash, and the endpoint stripped of all leading slashes, so the join has
exactly one slash and extra supplied slashes do not change it. -/
theorem request_url_single_slash_join (base ep : String) :
    request_url base ep = rstripSlash base ++ "/" ++ lstripSlash ep ∧
    (rstripSlash base).data.getLast? ≠ some '/' ∧
    (lstripSlash ep).data.head? ≠ some '/' ∧
    request_url (base ++ "/") ep = request_url base ep ∧
    request_url base ("/" ++ ep) = request_url base ep := by
  refine ⟨rfl, rstripSlash_no_trailing base, lstripSlash_no_leading ep, ?_, ?_⟩
  · unfold request_url
    rw [rstripSlash_append_slash]
  · unfold request_url
    rw [lstripSlash_slash_append]

/-- A successful parse: the agent and help flags are exactly the scans of
the vector for tokens resolving to the corresponding option. -/
theorem parse_args_flags (argv : List String) (args : ParsedArgs)
    (h : parse_args argv = Except.ok args) :
    args.agent = argv.any agentTok ∧ args.help = argv.any helpTok := by
  have hf := parseLoop_flags argv Pending.noneP {} args h
  simpa using hf

/-- The literal token `--agent` sets the agent flag. -/
theorem parse_args_agent_of_mem (argv : List String) (args : ParsedArgs)
    (h : parse_args argv = Except.ok args) (hm : "--agent" ∈ argv) :
    args.agent = true := by
  rw [(parse_args_flags argv args h).1]
  exact List.any_eq_true.mpr ⟨"--agent", hm, by decide⟩

/-- The literal tokens `-h` and `--help` set the help flag. -/
theorem parse_args_help_of_mem (argv : List String) (args : ParsedArgs)
    (h : parse_args argv = Except.ok args)
    (hm : "-h" ∈ argv ∨ "--help" ∈ argv) : args.help = true := by
  rw [(parse_args_flags argv args h).2]
  rcases hm with hm | hm
  · exact List.any_eq_true.mpr ⟨"-h", hm, by decide⟩
  · exact List.any_eq_true.mpr ⟨"--help", hm, by decide⟩

/-- A vector with no help-resolving token contains neither `-h` nor
`--help` literally. -/
theorem contains_false_of_no_helpTok (argv : List String)
    (hnh : argv.any helpTok = false) :
    argv.contains "-h" = false ∧ argv.contains "--help" = false := by
  constructor
  · cases hx : argv.contains "-h"
    · rfl
    · exfalso
      have ha : argv.any helpTok = true :=
        List.any_eq_true.mpr ⟨"-h", List.elem_iff.mp hx, by decide⟩
      rw [hnh] at ha
      exact absurd ha (by decide)
  · cases hx : argv.contains "--help"
    · rfl
    · exfalso
      have ha : argv.any helpTok = true :=
        List.any_eq_true.mpr ⟨"--help", List.elem_iff.mp hx, by decide⟩
      rw [hnh] at ha
      exact absurd ha (by decide)

/-- If no token of the vector resolves to the help option, every
termination before the HTTP call exits with code 2. -/
theorem mainSteps_error_code (argv : List String) (r : ProcResult)
    (h : mainSteps argv = Except.error r)
    (hnh : argv.any helpTok = false) :
    r.exitCode = 2 := by
  obtain ⟨hh, hhelp⟩ := contains_false_of_no_helpTok argv hnh
  unfold mainSteps at h
  have hgne : ¬ ((argv.contains "--agent" &&
      (argv.contains "--help" || argv.contains "-h")) = true) := by
    rw [hhelp, hh]
    simp
  rw [if_neg hgne] at h
  split at h
  · injection h with h'
    rw [← h']
  · rename_i args hpa
    by_cases hhp : args.help = true
    · exfalso
      have hfa := (parse_args_flags argv args hpa).2
      rw [hnh, hhp] at hfa
      exact absurd hfa (by decide)
    · rw [if_neg hhp] at h
      split at h
      · injection h with h'
        rw [← h']
        exact error_exitCode 2 "MISSING_COMMAND" "Command required (get or post)" args.agent
      · rename_i cmd hc
        split at h
        · injection h with h'
          rw [← h']
          exact error_exitCode 2 "MISSING_ENDPOINT" "Endpoint required" args.agent
        · rename_i ep he
          by_cases hp : cmd = "post"
          · rw [if_pos hp] at h
            split at h
            · injection h with h'
              rw [← h']
              exact error_exitCode 2 "MISSING_DATA" "POST requires --data argument" args.agent
            · rename_i d hd
              split at h
              · injection h with h'
                rw [← h']
                exact error_exitCode 2 "INVALID_JSON" "Data must be valid JSON" args.agent
              · exact (Except.noConfusion h)
          · rw [if_neg hp] at h
            exact (Except.noConfusion h)

/-- If `--agent` occurs in the vector, the request parameters carry agent
mode. -/
theorem mainSteps_ok_agent (argv : List String) (p : RequestParams)
    (h : mainSteps argv = Except.ok p)
    (hag : argv.contains "--agent" = true) : p.agent_mode = true := by
  unfold mainSteps at h
  by_cases hg : (argv.contains "--agent" &&
      (argv.contains "--help" || argv.contains "-h")) = true
  · rw [if_pos hg] at h
    exact (Except.noConfusion h)
  · rw [if_neg hg] at h
    split at h
    · exact (Except.noConfusion h)
    · rename_i args hpa
      have hagent : args.agent = true :=
        parse_args_agent_of_mem argv args hpa (List.elem_iff.mp hag)
      by_cases hhp : args.help = true
      · rw [if_pos hhp] at h
        exact (Except.noConfusion h)
      · rw [if_neg hhp] at h
        split at h
        · exact (Except.noConfusion h)
        · rename_i cmd hc
          split at h
          · exact (Except.noConfusion h)
          · rename_i ep he
            by_cases hp : cmd = "post"
            · rw [if_pos hp] at h
              split at h
              · exact (Except.noConfusion h)
              · rename_i d hd
                split at h
                · exact (Except.noConfusion h)
                · injection h with h'
                  rw [← h']
                  exact hagent
            · rw [if_neg hp] at h
              injection h with h'
              rw [← h']
              exact hagent

set_option maxRecDepth 8192 in
/-- C1 counterexample: `--agent --help` is an agent-mode invocation that
exits 0, yet its stdout is the help text, which no standard JSON parser
accepts. -/
theorem agent_help_stdout_not_json :
    ("--agent" ∈ (["--agent", "--help"] : List String)) ∧
    (mainRun ["--agent", "--help"] HttpOutcome.timeout).exitCode = 0 ∧
    (mainRun ["--agent", "--help"] HttpOutcome.timeout).stdout = [show_agent_help] ∧
    Json.parse show_agent_help = none :=
  ⟨by simp, rfl, rfl, rfl⟩

/-- C1 amended: in agent mode, every invocation that does not request help
(no token of the vector is `-h`, `--help`, or an argparse prefix
abbreviation resolving to `--help`) and exits 0 writes exactly one
serialized JSON value to stdout and nothing else. -/
theorem agent_zero_exit_stdout_single_json (argv : List String) (env : HttpOutcome)
    (hag : argv.contains "--agent" = true)
    (hnh : argv.any helpTok = false)
    (h0 : (mainRun argv env).exitCode = 0) :
    ∃ j : Json, (mainRun argv env).stdout = [Json.dumps j] := by
  unfold mainRun at h0 ⊢
  rcases hms : mainSteps argv with r | p
  · simp only [hms] at h0
    have h2 := mainSteps_error_code argv r hms hnh
    rw [h2] at h0
    exact absurd h0 (by decide)
  · simp only [hms] at h0 ⊢
    have hagent : p.agent_mode = true := mainSteps_ok_agent argv p hms hag
    cases env with
    | success body =>
      refine ⟨body, ?_⟩
      simp [make_request, hagent]
    | httpError c reason =>
      exfalso
      by_cases hc : c = 404
      · simp [make_request, if_pos hc, withRequested_exitCode, error_exitCode] at h0
      · simp [make_request, if_neg hc, withRequested_exitCode, error_exitCode] at h0
    | urlError reason =>
      exfalso
      simp [make_request, withRequested_exitCode, error_exitCode] at h0
    | timeout =>
      exfalso
      simp [make_request, withRequested_exitCode, error_exitCode] at h0
    | invalidJson =>
      exfalso
      simp [make_request, withRequested_exitCode, error_exitCode] at h0
    | unexpected msg =>
      exfalso
      simp [make_request, withRequested_exitCode, error_exitCode] at h0

/-- Witness for `agent_zero_exit_stdout_single_json` at a concrete
successful agent-mode fetch. -/
theorem agent_zero_exit_stdout_single_json_witness :
    (["--agent", "get", "/posts/1"].contains "--agent" = true) ∧
    (["--agent", "get", "/posts/1"].any helpTok = false) ∧
    (mainRun ["--agent", "get", "/posts/1"]
      (HttpOutcome.success (Json.obj [("id", Json.num 1)]))).exitCode = 0 ∧
    ∃ j : Json, (mainRun ["--agent", "get", "/posts/1"]
      (HttpOutcome.success (Json.obj [("id", Json.num 1)]))).stdout = [Json.dumps j] :=
  ⟨rfl, by decide, rfl,
    agent_zero_exit_stdout_single_json ["--agent", "get", "/posts/1"]
      (HttpOutcome.success (Json.obj [("id", Json.num 1)])) rfl (by decide) rfl⟩

/-- C4 counterexample: the vector `-h badcmd` contains `-h`, yet the
argument parser rejects the invalid `command` choice and the process exits
2, not 0. -/
theorem help_with_bad_command_exits_2 :
    ("-h" ∈ (["-h", "badcmd"] : List String)) ∧
    (mainRun ["-h", "badcmd"] HttpOutcome.timeout).exitCode = 2 :=
  ⟨by simp, rfl⟩

/-- C4 amended: any invocation whose vector holds `-h` or `--help` and
that either is in agent mode or parses successfully exits 0 before any
validation or domain action: no error is reported and no HTTP request is
made. -/
theorem help_short_circuits (argv : List String) (env : HttpOutcome)
    (hmem : "-h" ∈ argv ∨ "--help" ∈ argv)
    (hok : argv.contains "--agent" = true ∨ ∃ a, parse_args argv = Except.ok a) :
    (mainRun argv env).exitCode = 0 ∧
    (mainRun argv env).report = none ∧
    (mainRun argv env).requested = none := by
  have hcontains : (argv.contains "--help" || argv.contains "-h") = true := by
    rcases hmem with hm | hm
    · have : argv.contains "-h" = true := List.elem_iff.mpr hm
      rw [this]
      simp
    · have : argv.contains "--help" = true := List.elem_iff.mpr hm
      rw [this]
      simp
  by_cases hag : argv.contains "--agent" = true
  · have hg : (argv.contains "--agent" &&
        (argv.contains "--help" || argv.contains "-h")) = true := by
      rw [hag, hcontains]
      rfl
    unfold mainRun mainSteps
    rw [if_pos hg]
    exact ⟨rfl, rfl, rfl⟩
  · rcases hok with hok | ⟨a, hpa⟩
    · exact absurd hok hag
    · have hhelp : a.help = true := parse_args_help_of_mem argv a hpa hmem
      have hag' : argv.contains "--agent" = false := by
        cases hx : argv.contains "--agent"
        · rfl
        · exact absurd hx hag
      have hgne : ¬ ((argv.contains "--agent" &&
          (argv.contains "--help" || argv.contains "-h")) = true) := by
        rw [hag']
        simp
      unfold mainRun mainSteps
      rw [if_neg hgne]
      simp only [hpa]
      rw [if_pos hhelp]
      exact ⟨rfl, rfl, rfl⟩

/-- Witness for `help_short_circuits`: plain `--help` in human mode. -/
theorem help_short_circuits_witness :
    ("--help" ∈ (["--help"] : List String)) ∧
    parse_args ["--help"] = Except.ok ⟨false, BASE_URL, 10, true, none, none, none⟩ ∧
    (mainRun ["--help"] HttpOutcome.timeout).exitCode = 0 ∧
    (mainRun ["--help"] HttpOutcome.timeout).report = none ∧
    (mainRun ["--help"] HttpOutcome.timeout).requested = none :=
  have h := help_short_circuits ["--help"] HttpOutcome.timeout
    (Or.inr (by simp))
    (Or.inr ⟨⟨false, BASE_URL, 10, true, none, none, none⟩, rfl⟩)
  ⟨by simp, rfl, h.1, h.2.1, h.2.2⟩

/-- C5: every validation failure (missing command, missing endpoint,
missing `--data` for post, or `--data` that is not valid JSON) exits with
code exactly 2, writes nothing to stdout, and writes its one-line error
report to stderr only. -/
theorem validation_failure_exit_2 (argv : List String) (env : HttpOutcome)
    (a : ParsedArgs)
    (hpa : parse_args argv = Except.ok a) (hhf : a.help = false)
    (hval : a.command = none ∨
            (a.command ≠ none ∧ a.endpoint = none) ∨
            (a.command = some "post" ∧ a.endpoint ≠ none ∧
              (a.data = none ∨ ∃ d, a.data = some d ∧ Json.parse d = none))) :
    (mainRun argv env).exitCode = 2 ∧
    (mainRun argv env).stdout = [] ∧
    (mainRun argv env).stderr.length = 1 := by
  have hnomem : ¬ ("-h" ∈ argv ∨ "--help" ∈ argv) := by
    intro hm
    have ht := parse_args_help_of_mem argv a hpa hm
    rw [hhf] at ht
    exact absurd ht (by decide)
  have hgne : ¬ ((argv.contains "--agent" &&
      (argv.contains "--help" || argv.contains "-h")) = true) := by
    intro hg
    cases hyy : argv.contains "--help" with
    | true => exact hnomem (Or.inr (List.elem_iff.mp hyy))
    | false =>
      cases hzz : argv.contains "-h" with
      | true => exact hnomem (Or.inl (List.elem_iff.mp hzz))
      | false =>
        rw [hyy, hzz] at hg
        simp at hg
  have hhne : ¬ (a.help = true) := by
    rw [hhf]
    simp
  unfold mainRun mainSteps
  rw [if_neg hgne]
  simp only [hpa]
  rw [if_neg hhne]
  rcases hval with hc | ⟨hc, he⟩ | ⟨hc, he, hd⟩
  · simp only [hc]
    exact ⟨error_exitCode 2 "MISSING_COMMAND" "Command required (get or post)" a.agent,
      error_stdout 2 "MISSING_COMMAND" "Command required (get or post)" a.agent,
      error_stderr_len 2 "MISSING_COMMAND" "Command required (get or post)" a.agent⟩
  · rcases hcc : a.command with _ | cmd
    · exact absurd hcc hc
    · simp only [hcc, he]
      exact ⟨error_exitCode 2 "MISSING_ENDPOINT" "Endpoint required" a.agent,
        error_stdout 2 "MISSING_ENDPOINT" "Endpoint required" a.agent,
        error_stderr_len 2 "MISSING_ENDPOINT" "Endpoint required" a.agent⟩
  · rcases hee : a.endpoint with _ | ep
    · exact absurd hee he
    · simp only [hc, hee, if_true]
      rcases hd with hd | ⟨d, hd, hj⟩
      · simp only [hd]
        exact ⟨error_exitCode 2 "MISSING_DATA" "POST requires --data argument" a.agent,
          error_stdout 2 "MISSING_DATA" "POST requires --data argument" a.agent,
          error_stderr_len 2 "MISSING_DATA" "POST requires --data argument" a.agent⟩
      · simp only [hd, hj]
        exact ⟨error_exitCode 2 "INVALID_JSON" "Data must be valid JSON" a.agent,
          error_stdout 2 "INVALID_JSON" "Data must be valid JSON" a.agent,
          error_stderr_len 2 "INVALID_JSON" "Data must be valid JSON" a.agent⟩

/-- Witness for `validation_failure_exit_2`: agent-mode `get` without an
endpoint. -/
theorem validation_failure_exit_2_witness :
    parse_args ["--agent", "get"] =
      Except.ok ⟨true, BASE_URL, 10, false, some "get", none, none⟩ ∧
    (mainRun ["--agent", "get"] HttpOutcome.timeout).exitCode = 2 ∧
    (mainRun ["--agent", "get"] HttpOutcome.timeout).stdout = [] ∧
    (mainRun ["--agent", "get"] HttpOutcome.timeout).stderr.length = 1 :=
  have h := validation_failure_exit_2 ["--agent", "get"] HttpOutcome.timeout
    ⟨true, BASE_URL, 10, false, some "get", none, none⟩ rfl rfl
    (Or.inr (Or.inl ⟨by simp, rfl⟩))
  ⟨rfl, h.1, h.2.1, h.2.2⟩

/-- The fetch layer raises only 504, 502 or 500, never 400. -/
theorem fetch_weather_data_status (env : FetchOutcome) (city : String)
    (e : HTTPException) (h : fetch_weather_data env city = Except.error e) :
    e.status_code = 504 ∨ e.status_code = 502 ∨ e.status_code = 500 := by
  cases env with
  | ok data => exact (Except.noConfusion h)
  | timeout =>
    injection h with h'
    rw [← h']
    left
    rfl
  | requestError msg =>
    injection h with h'
    rw [← h']
    right
    left
    rfl
  | invalidJson =>
    injection h with h'
    rw [← h']
    right
    right
    rfl

/-- The parse layer raises, as an `HTTPException`, only 500. -/
theorem parse_weather_response_status (data : Json) (city units : String)
    (e : HTTPException)
    (h : parse_weather_response data city units = Except.error (PyError.httpExc e)) :
    e.status_code = 500 := by
  unfold parse_weather_response at h
  split at h
  · exact (Except.noConfusion h)
  · injection h with h'
    injection h' with h''
    rw [← h'']
  · injection h with h'
    exact (PyError.noConfusion h')

/-- With valid units, `get_weather` never produces a 400 error. -/
theorem get_weather_no_400_when_valid (env : FetchOutcome) (city units : String)
    (hu : units = "metric" ∨ units = "imperial") (d : String)
    (hd : (get_weather env city units).result =
      Except.error (PyError.httpExc ⟨400, d⟩)) : False := by
  unfold get_weather at hd
  rw [if_pos hu] at hd
  split at hd
  · rename_i e hf
    injection hd with hd'
    injection hd' with hd''
    have := fetch_weather_data_status env city e hf
    rw [hd''] at this
    rcases this with h4 | h4 | h4 <;> simp at h4
  · rename_i raw hf
    have h5 := parse_weather_response_status raw city units ⟨400, d⟩ hd
    simp at h5

/-- C10: `get_weather` raises an HTTP 400 error exactly when `units` is
neither `metric` nor `imperial`, and in that case the check fires before
any network fetch, so no external request is attempted. -/
theorem get_weather_units_400 (env : FetchOutcome) (city units : String) :
    ((∃ d, (get_weather env city units).result =
        Except.error (PyError.httpExc ⟨400, d⟩)) ↔
      ¬(units = "metric" ∨ units = "imperial")) ∧
    (¬(units = "metric" ∨ units = "imperial") →
      (get_weather env city units).fetchAttempted = false) := by
  by_cases hu : units = "metric" ∨ units = "imperial"
  · refine ⟨⟨?_, ?_⟩, ?_⟩
    · rintro ⟨d, hd⟩
      exact absurd hu (fun _ => get_weather_no_400_when_valid env city units hu d hd)
    · intro hnu
      exact absurd hu hnu
    · intro hnu
      exact absurd hu hnu
  · refine ⟨⟨?_, ?_⟩, ?_⟩
    · intro _
      exact hu
    · intro _
      refine ⟨"Invalid units: " ++ units ++ ". Must be \x27metric\x27 or \x27imperial\x27", ?_⟩
      unfold get_weather
      rw [if_neg hu]
    · intro _
      unfold get_weather
      rw [if_neg hu]

/-- Witness for `get_weather_units_400`: units `kelvin` yield the 400 and
no fetch. -/
theorem get_weather_units_400_witness :
    (get_weather (FetchOutcome.ok (Json.obj [])) "Boston" "kelvin").fetchAttempted
      = false ∧
    (get_weather (FetchOutcome.ok (Json.obj [])) "Boston" "kelvin").result =
      Except.error (PyError.httpExc
        ⟨400, "Invalid units: kelvin. Must be \x27metric\x27 or \x27imperial\x27"⟩) :=
  ⟨(get_weather_units_400 (FetchOutcome.ok (Json.obj [])) "Boston" "kelvin").2
    (by simp), rfl⟩
